import Mathlib

/-
Verification of the CHIP-8 interpreter scaffolding in src/chip-8/chip8.h
(namespace Emulation, class Chip8).

The embedding models the constructor (Chip8::Chip8) and the ROM loader
(Chip8::LoadROM) over explicit state.  Machine bytes are Nat; the byte
arrays of the class are lists of Nat of the source's fixed lengths.
File-system access is abstracted: LoadROM receives the content the
ifstream would deliver, as an Option (List Nat) where none stands for a
stream that could not be opened and some bytes for a stream of exactly
those bytes (tellg after ios::ate gives their count).  The exceptions
RomNoDataError and RomTooLargeError become an Option LoadError result.
-/

/-- constexpr unsigned MEMORY_FOOTPRINT = 4096 -/
def MEMORY_FOOTPRINT : Nat := 4096

/-- constexpr uint8_t STACK_SIZE = 16 -/
def STACK_SIZE : Nat := 16

/-- constexpr auto CHIP8_DISPAY_WIDTH = 64 -/
def CHIP8_DISPAY_WIDTH : Nat := 64

/-- constexpr auto CHIP8_DISPLAY_HEIGHT = 32 -/
def CHIP8_DISPLAY_HEIGHT : Nat := 32

/-- constexpr auto ROOT_REGISTER_ADDRESS = 0x200 -/
def ROOT_REGISTER_ADDRESS : Nat := 0x200

/-- constexpr uint8_t FONT_SET_SIZE_BYTES = 80 -/
def FONT_SET_SIZE_BYTES : Nat := 80

/-- constexpr uint8_t FONT_SET_START_ADDRESS = 0x50 -/
def FONT_SET_START_ADDRESS : Nat := 0x50

/-- constexpr std::array of the 80 glyph bytes (16 characters, 5 bytes each). -/
def FONT_SET : List Nat :=
  [0xF0, 0x90, 0x90, 0x90, 0xF0,
   0x20, 0x60, 0x20, 0x20, 0x70,
   0xF0, 0x10, 0xF0, 0x80, 0xF0,
   0xF0, 0x10, 0xF0, 0x10, 0xF0,
   0x90, 0x90, 0xF0, 0x10, 0x10,
   0xF0, 0x80, 0xF0, 0x10, 0xF0,
   0xF0, 0x80, 0xF0, 0x90, 0xF0,
   0xF0, 0x10, 0x20, 0x40, 0x40,
   0xF0, 0x90, 0xF0, 0x90, 0xF0,
   0xF0, 0x90, 0xF0, 0x10, 0xF0,
   0xF0, 0x90, 0xF0, 0x90, 0x90,
   0xE0, 0x90, 0xE0, 0x90, 0xE0,
   0xF0, 0x80, 0x80, 0x80, 0xF0,
   0xE0, 0x90, 0x90, 0x90, 0xE0,
   0xF0, 0x80, 0xF0, 0x80, 0xF0,
   0xF0, 0x80, 0xF0, 0x80, 0x80]

/-- The private state of class Chip8: each member in declaration order
(_memory through _opcode; the Mersenne-twister generator carries no
observable machine state touched by the modelled operations). -/
structure Chip8 where
  memory : List Nat
  registers : List Nat
  indexRegister : Nat
  programCounter : Nat
  stackPointer : Nat
  stack : List Nat
  displayMemory : List Nat
  delayTimer : Nat
  soundTimer : Nat
  opcode : Nat
deriving DecidableEq, Repr

/-- The font-preload loop of the constructor, exactly as written at
chip8.h:139-142: for i in 0..79 it assigns
memory[FONT_SET_START_ADDRESS + 1] := FONT_SET[i] — the index expression
is the constant 0x50 + 1, not 0x50 + i. -/
def loadFontSet (mem : List Nat) : List Nat :=
  (List.range FONT_SET_SIZE_BYTES).foldl
    (fun m i => m.set (FONT_SET_START_ADDRESS + 1) (FONT_SET.getD i 0)) mem

/-- Chip8::Chip8 (): program counter initialized to ROOT_REGISTER_ADDRESS,
all value-initialized members zero, then the font-preload loop runs over
the 4096-byte memory. -/
def Chip8.construct : Chip8 where
  memory := loadFontSet (List.replicate MEMORY_FOOTPRINT 0)
  registers := List.replicate 16 0
  indexRegister := 0
  programCounter := ROOT_REGISTER_ADDRESS
  stackPointer := 0
  stack := List.replicate STACK_SIZE 0
  displayMemory := List.replicate (CHIP8_DISPAY_WIDTH * CHIP8_DISPLAY_HEIGHT) 0
  delayTimer := 0
  soundTimer := 0
  opcode := 0

/-- The two exception classes LoadROM can throw. -/
inductive LoadError where
  | RomNoDataError
  | RomTooLargeError
deriving DecidableEq, Repr

/-- Byte-for-byte copy of bytes into mem starting at index start: the
effect of stream.read (reinterpret_cast to char pointer, contentSize)
landing at the given offset of the array. -/
def writeBytes (mem : List Nat) (start : Nat) (bytes : List Nat) : List Nat :=
  match bytes with
  | [] => mem
  | b :: rest => writeBytes (mem.set start b) (start + 1) rest

/-- Guarded variant of writeBytes that refuses any write whose index falls
outside the array, used to state that the copy in LoadROM stays in
bounds: it returns some exactly when every written index is < mem.length. -/
def writeBytesChecked (mem : List Nat) (start : Nat) (bytes : List Nat) :
    Option (List Nat) :=
  match bytes with
  | [] => some mem
  | b :: rest =>
    if start < mem.length then writeBytesChecked (mem.set start b) (start + 1) rest
    else none

/-- Chip8::LoadROM (chip8.h:157-201).  A stream that fails to open prints
a message and returns with no error and no state change.  Otherwise
contentSize = tellg() is the byte count; contentSize <= 0 throws
RomNoDataError, contentSize > MEMORY_FOOTPRINT throws RomTooLargeError,
both before any read touches memory; else the stream is rewound and read
into the address of _memory itself, i.e. the copy starts at index 0. -/
def Chip8.LoadROM (c : Chip8) (file : Option (List Nat)) :
    Chip8 × Option LoadError :=
  match file with
  | none => (c, none)
  | some content =>
    if content.length ≤ 0 then
      (c, some LoadError.RomNoDataError)
    else if content.length > MEMORY_FOOTPRINT then
      (c, some LoadError.RomTooLargeError)
    else
      ({ c with memory := writeBytes c.memory 0 content }, none)

/-- States reachable through the modelled operations: construction
followed by any sequence of LoadROM calls. -/
inductive Reachable : Chip8 → Prop where
  | construct : Reachable Chip8.construct
  | load (c : Chip8) (file : Option (List Nat)) :
      Reachable c → Reachable (c.LoadROM file).1

/- ----------------------------------------------------------------- -/
/- Helper lemmas                                                      -/
/- ----------------------------------------------------------------- -/

theorem writeBytes_length (bytes : List Nat) :
    ∀ (mem : List Nat) (start : Nat),
      (writeBytes mem start bytes).length = mem.length := by
  induction bytes with
  | nil => intro mem start; rfl
  | cons b rest ih =>
    intro mem start
    simp [writeBytes, ih, List.length_set]

theorem writeBytesChecked_eq_some (bytes : List Nat) :
    ∀ (mem : List Nat) (start : Nat), start + bytes.length ≤ mem.length →
      writeBytesChecked mem start bytes = some (writeBytes mem start bytes) := by
  induction bytes with
  | nil => intro mem start _; rfl
  | cons b rest ih =>
    intro mem start h
    have hlt : start < mem.length := by
      simp [List.length_cons] at h
      omega
    simp [writeBytesChecked, writeBytes, hlt]
    apply ih
    simp [List.length_set]
    simp [List.length_cons] at h
    omega

theorem LoadROM_programCounter (c : Chip8) (file : Option (List Nat)) :
    (c.LoadROM file).1.programCounter = c.programCounter := by
  unfold Chip8.LoadROM
  cases file with
  | none => rfl
  | some content =>
    by_cases h0 : content.length ≤ 0
    · simp [h0]
    · by_cases h1 : content.length > MEMORY_FOOTPRINT
      · simp [h0, h1]
      · simp [h0, h1]

theorem LoadROM_snd (c : Chip8) (content : List Nat) :
    (c.LoadROM (some content)).2 =
      if content.length ≤ 0 then some LoadError.RomNoDataError
      else if content.length > MEMORY_FOOTPRINT then some LoadError.RomTooLargeError
      else none := by
  unfold Chip8.LoadROM
  by_cases h0 : content.length ≤ 0
  · simp [h0]
  · by_cases h1 : content.length > MEMORY_FOOTPRINT
    · simp [h0, h1]
    · simp [h0, h1]

theorem loadFontSet_length (mem : List Nat) :
    (loadFontSet mem).length = mem.length := by
  unfold loadFontSet
  generalize List.range FONT_SET_SIZE_BYTES = l
  induction l generalizing mem with
  | nil => rfl
  | cons a as ih => rw [List.foldl_cons, ih, List.length_set]

theorem construct_memory_length :
    Chip8.construct.memory.length = MEMORY_FOOTPRINT := by
  show (loadFontSet (List.replicate MEMORY_FOOTPRINT 0)).length = MEMORY_FOOTPRINT
  rw [loadFontSet_length, List.length_replicate]

/- ----------------------------------------------------------------- -/
/- Claim theorems                                                     -/
/- ----------------------------------------------------------------- -/

set_option maxRecDepth 8192 in
/-- C1: the claim fails on the code.  LoadROM reads the image into the
address of the memory array itself, so the copy starts at index 0x000,
not at the program origin 0x200.  Loading the one-byte image [0xAB] into
a freshly constructed interpreter succeeds, yet memory[0x200] keeps its
zero value while the byte lands at address 0x000. -/
theorem c1_load_does_not_copy_to_origin :
    (Chip8.construct.LoadROM (some [0xAB])).2 = none ∧
    (Chip8.construct.LoadROM (some [0xAB])).1.memory.getD 0x200 0 = 0 ∧
    (Chip8.construct.LoadROM (some [0xAB])).1.memory.getD 0 0 = 0xAB := by
  decide

/-- C2: the claim fails on the code.  The size guard compares contentSize
against MEMORY_FOOTPRINT = 4096, not against 4096 - 512 = 3584, so a
3585-byte image is accepted with no error; the smallest rejected size is
4097. -/
theorem c2_oversized_image_accepted :
    (Chip8.construct.LoadROM (some (List.replicate 3585 0xCD))).2 = none ∧
    (Chip8.construct.LoadROM (some (List.replicate 4097 0xCD))).2 =
      some LoadError.RomTooLargeError := by
  constructor
  · rw [LoadROM_snd, List.length_replicate]
    decide
  · rw [LoadROM_snd, List.length_replicate]
    decide

/-- C3: the claim fails on the code.  The constructor's preload loop
writes every glyph byte to the constant address FONT_SET_START_ADDRESS + 1
= 0x51, so after construction memory[0x50] is still 0 rather than
FONT_SET[0] = 0xF0, and 0x51 holds the last glyph byte 0x80. -/
theorem c3_font_table_not_sequential :
    FONT_SET.getD 0 0 = 0xF0 ∧
    Chip8.construct.memory.getD FONT_SET_START_ADDRESS 0 = 0 ∧
    Chip8.construct.memory.getD (FONT_SET_START_ADDRESS + 1) 0 = 0x80 := by
  decide

/-- C4 counterexample: a successful LoadROM performs no assignment to the
program counter.  From a state whose counter holds 0x300, loading a valid
one-byte image succeeds and the counter still holds 0x300, not 0x200. -/
theorem c4_load_does_not_set_pc :
    (({ Chip8.construct with programCounter := 0x300 }).LoadROM
        (some [0x01])).2 = none ∧
    (({ Chip8.construct with programCounter := 0x300 }).LoadROM
        (some [0x01])).1.programCounter = 0x300 := by
  constructor
  · rfl
  · rfl

/-- C4 (amended): LoadROM leaves the program counter unchanged; since the
constructor initializes it to the program origin 0x200 and no modelled
operation modifies it, every state reachable by construction followed by
any sequence of loads has programCounter = 0x200, so re-loading an image
leaves the counter at 0x200. -/
theorem c4_pc_stays_origin (c : Chip8) (h : Reachable c) :
    c.programCounter = ROOT_REGISTER_ADDRESS := by
  induction h with
  | construct => rfl
  | load c file hr ih =>
    rw [LoadROM_programCounter]
    exact ih

theorem c4_pc_stays_origin_witness :
    (Chip8.construct.LoadROM (some [0x01, 0x02])).1.programCounter =
      ROOT_REGISTER_ADDRESS :=
  c4_pc_stays_origin _ (Reachable.load _ _ Reachable.construct)

/-- C5: the claim fails on the code.  Because the copy of LoadROM starts
at address 0x000, a successful load writes inside the reserved region
below 0x200: loading the one-byte image [0x7F] changes the byte at
address 0 from 0 to 0x7F. -/
theorem c5_reserved_region_clobbered :
    Chip8.construct.memory.getD 0 0 = 0 ∧
    (Chip8.construct.LoadROM (some [0x7F])).2 = none ∧
    (Chip8.construct.LoadROM (some [0x7F])).1.memory.getD 0 0 = 0x7F := by
  decide

/-- C6: a zero-length image makes LoadROM throw RomNoDataError before any
read touches memory: the state is returned entirely unchanged together
with the error. -/
theorem c6_empty_image_rejected (c : Chip8) (content : List Nat)
    (h : content.length = 0) :
    c.LoadROM (some content) = (c, some LoadError.RomNoDataError) := by
  unfold Chip8.LoadROM
  simp [h]

theorem c6_empty_image_rejected_witness :
    Chip8.construct.LoadROM (some ([] : List Nat)) =
      (Chip8.construct, some LoadError.RomNoDataError) :=
  c6_empty_image_rejected Chip8.construct [] rfl

/-- C7: immediately after construction the program counter equals the
program origin 0x200 and the sixteen general-purpose registers are all
zero. -/
theorem c7_construction_state :
    Chip8.construct.programCounter = ROOT_REGISTER_ADDRESS ∧
    Chip8.construct.registers = List.replicate 16 0 := by
  decide

/-- C8: for every image that passes the size guard (0 < length ≤
MEMORY_FOOTPRINT), the copy performed by LoadROM writes only indices
inside the 4096-byte array: the bounds-guarded copy succeeds and agrees
with the unguarded one, and that is exactly the memory LoadROM produces. -/
theorem c8_copy_within_bounds (c : Chip8) (content : List Nat)
    (hmem : c.memory.length = MEMORY_FOOTPRINT)
    (hpos : 0 < content.length) (hle : content.length ≤ MEMORY_FOOTPRINT) :
    writeBytesChecked c.memory 0 content = some (writeBytes c.memory 0 content) ∧
    (c.LoadROM (some content)).1.memory = writeBytes c.memory 0 content := by
  constructor
  · apply writeBytesChecked_eq_some
    omega
  · unfold Chip8.LoadROM
    have h0 : ¬ content.length ≤ 0 := by omega
    have h1 : ¬ content.length > MEMORY_FOOTPRINT := by omega
    simp [h0, h1]

theorem c8_copy_within_bounds_witness :
    writeBytesChecked Chip8.construct.memory 0 [0x12, 0x34] =
      some (writeBytes Chip8.construct.memory 0 [0x12, 0x34]) ∧
    (Chip8.construct.LoadROM (some [0x12, 0x34])).1.memory =
      writeBytes Chip8.construct.memory 0 [0x12, 0x34] :=
  c8_copy_within_bounds Chip8.construct [0x12, 0x34]
    construct_memory_length (by decide) (by decide)

/-- C9: LoadROM mutates only the memory array.  For every starting state
and every file outcome (unopenable, empty, oversized, or successful), the
registers, index register, program counter, stack, stack pointer, display
buffer, delay timer and sound timer after the call equal their values
before it. -/
theorem c9_load_touches_only_memory (c : Chip8) (file : Option (List Nat)) :
    (c.LoadROM file).1.registers = c.registers ∧
    (c.LoadROM file).1.indexRegister = c.indexRegister ∧
    (c.LoadROM file).1.programCounter = c.programCounter ∧
    (c.LoadROM file).1.stack = c.stack ∧
    (c.LoadROM file).1.stackPointer = c.stackPointer ∧
    (c.LoadROM file).1.displayMemory = c.displayMemory ∧
    (c.LoadROM file).1.delayTimer = c.delayTimer ∧
    (c.LoadROM file).1.soundTimer = c.soundTimer := by
  unfold Chip8.LoadROM
  cases file with
  | none => exact ⟨rfl, rfl, rfl, rfl, rfl, rfl, rfl, rfl⟩
  | some content =>
    by_cases h0 : content.length ≤ 0
    · simp [h0]
    · by_cases h1 : content.length > MEMORY_FOOTPRINT
      · simp [h0, h1]
      · simp [h0, h1]

/-- C10: when the stream cannot be opened, LoadROM prints a message and
returns normally: no error value is produced and the whole state,
memory included, is exactly the input state. -/
theorem c10_unopened_stream_no_effect (c : Chip8) :
    c.LoadROM none = (c, none) := rfl
